import Mathlib

/-!
# Verification of the arsnova-client library (`src/client.rs`)

This file gives a shallow embedding of the parts of `src/client.rs` that the
specification talks about: the websocket frame codec (`WsFeedbackMessage`,
`WsCreateFeedbackMessage`), the feedback data model (`Feedback`,
`FeedbackValue`), the token handling (`get_user_id`), the HTTP response
handling (`guest_login`, `get_room_info`, `get_room_stats`), the websocket URL
derivation, and the shape of the three streaming `select!` loops.

Rust machine integers are embedded as `Nat` with an explicit `% 2 ^ w` where
overflow matters.  Fallible Rust code returns `Option`/`Except`.  A Rust
`unwrap()` that can actually fail (a potential panic) is embedded as an outer
`Option` whose `none` means "the code panics here".

Library functions used by the Rust source (string splitting/trimming,
JSON via serde_json, base64 decoding, UTF-8 validation) are modelled by
executable Lean functions over `List Char` / `List Nat` mirroring the
documented behaviour of those libraries on the inputs this program can feed
them (JSON numbers with a fractional part or exponent are kept abstract as
`Json.numF`; none of the typed fields this program reads may be fractional).
-/

namespace ArsnovaClient

/-! ## String helpers (models of Rust `str` methods used by the source) -/

/-- Model of Rust `char::is_whitespace` (the Unicode `White_Space` property). -/
def rustIsWhitespace (c : Char) : Bool :=
  c.toNat = 0x9 || c.toNat = 0xA || c.toNat = 0xB || c.toNat = 0xC ||
  c.toNat = 0xD || c.toNat = 0x20 || c.toNat = 0x85 || c.toNat = 0xA0 ||
  c.toNat = 0x1680 || (0x2000 ≤ c.toNat && c.toNat ≤ 0x200A) ||
  c.toNat = 0x2028 || c.toNat = 0x2029 || c.toNat = 0x202F ||
  c.toNat = 0x205F || c.toNat = 0x3000

/-- Model of Rust `str::trim`: remove leading and trailing whitespace. -/
def rustTrim (s : List Char) : List Char :=
  ((s.dropWhile rustIsWhitespace).reverse.dropWhile rustIsWhitespace).reverse

/-- Worker for `splitOnStr` with explicit fuel (the fuel is always at least
the length of the remaining input plus one, so the `0` case is unreachable). -/
def splitOnAux (sep : List Char) : Nat → List Char → List Char → List (List Char)
  | 0, acc, s => [acc.reverse ++ s]
  | fuel + 1, acc, s =>
    if sep.isPrefixOf s ∧ sep ≠ [] then
      acc.reverse :: splitOnAux sep fuel [] (s.drop sep.length)
    else
      match s with
      | [] => [acc.reverse]
      | c :: cs => splitOnAux sep fuel (c :: acc) cs

/-- Model of Rust `str::split` with a string pattern (leftmost,
non-overlapping matches; always yields at least one part). -/
def splitOnStr (s sep : String) : List String :=
  (splitOnAux sep.data (s.data.length + 1) [] s.data).map String.mk

/-- Worker for Rust `str::replace` with explicit fuel; replaces leftmost
non-overlapping occurrences of `pat` by `rep`.  With insufficient fuel the
remaining input is returned unchanged (never happens for the fuel used). -/
def replaceAux (pat rep : List Char) : Nat → List Char → List Char
  | _, [] => []
  | 0, s => s
  | fuel + 1, c :: cs =>
    if pat.isPrefixOf (c :: cs) ∧ pat ≠ [] then
      rep ++ replaceAux pat rep fuel ((c :: cs).drop pat.length)
    else
      c :: replaceAux pat rep fuel cs

/-- Model of Rust `str::replace` (all occurrences, leftmost first). -/
def rustReplace (s pat rep : String) : String :=
  String.mk (replaceAux pat.data rep.data s.data.length s.data)

/-- `true` iff `pat` occurs as a contiguous subsequence of `s`. -/
def hasSubSeq (pat : List Char) : List Char → Bool
  | [] => pat.isPrefixOf []
  | c :: cs => pat.isPrefixOf (c :: cs) || hasSubSeq pat cs

/-! ## A JSON model (serde_json on the fragment this program exchanges) -/

/-- JSON values.  Integral numbers carry their value; numbers with a
fractional part or exponent are collapsed into `numF` (no typed field read by
this program accepts them, so their value is irrelevant). -/
inductive Json where
  | null : Json
  | bool (b : Bool) : Json
  | num (n : Int) : Json
  | numF : Json
  | str (s : String) : Json
  | arr (xs : List Json) : Json
  | obj (fields : List (String × Json)) : Json

/-- First-occurrence field lookup in a JSON object body. -/
def lookupField : List (String × Json) → String → Option Json
  | [], _ => none
  | (k, v) :: rest, key => if k = key then some v else lookupField rest key

/-- JSON insignificant whitespace (serde_json: space, tab, LF, CR). -/
def jsonWsChar (c : Char) : Bool :=
  c = ' ' || c = '\t' || c = '\n' || c = '\r'

/-- Drop leading JSON whitespace. -/
def skipWs : List Char → List Char
  | [] => []
  | c :: cs => if jsonWsChar c then skipWs cs else c :: cs

/-- Hex digit value. -/
def hexVal? (c : Char) : Option Nat :=
  if '0' ≤ c ∧ c ≤ '9' then some (c.toNat - 48)
  else if 'a' ≤ c ∧ c ≤ 'f' then some (c.toNat - 87)
  else if 'A' ≤ c ∧ c ≤ 'F' then some (c.toNat - 55)
  else none

/-- Parse the body of a JSON string (the opening quote already consumed),
returning the decoded characters and the rest of the input.  Handles the
escape sequences serde_json accepts, including surrogate pairs; rejects
unescaped control characters. -/
def parseStringBody : Nat → List Char → Option (List Char × List Char)
  | 0, _ => none
  | fuel + 1, input =>
    match input with
    | [] => none
    | c :: cs =>
      if c = '"' then some ([], cs)
      else if c = '\\' then
        match cs with
        | [] => none
        | e :: cs2 =>
          if e = '"' ∨ e = '\\' ∨ e = '/' then
            (parseStringBody fuel cs2).map (fun r => (e :: r.1, r.2))
          else if e = 'b' then
            (parseStringBody fuel cs2).map (fun r => ('\x08' :: r.1, r.2))
          else if e = 'f' then
            (parseStringBody fuel cs2).map (fun r => ('\x0c' :: r.1, r.2))
          else if e = 'n' then
            (parseStringBody fuel cs2).map (fun r => ('\n' :: r.1, r.2))
          else if e = 'r' then
            (parseStringBody fuel cs2).map (fun r => ('\r' :: r.1, r.2))
          else if e = 't' then
            (parseStringBody fuel cs2).map (fun r => ('\t' :: r.1, r.2))
          else if e = 'u' then
            match cs2 with
            | h1 :: h2 :: h3 :: h4 :: cs3 =>
              match hexVal? h1, hexVal? h2, hexVal? h3, hexVal? h4 with
              | some a, some b, some c1, some d =>
                let n := ((a * 16 + b) * 16 + c1) * 16 + d
                if n < 0xD800 ∨ 0xDFFF < n then
                  (parseStringBody fuel cs3).map (fun r => (Char.ofNat n :: r.1, r.2))
                else if n ≤ 0xDBFF then
                  match cs3 with
                  | '\\' :: 'u' :: g1 :: g2 :: g3 :: g4 :: cs4 =>
                    match hexVal? g1, hexVal? g2, hexVal? g3, hexVal? g4 with
                    | some a2, some b2, some c2, some d2 =>
                      let m := ((a2 * 16 + b2) * 16 + c2) * 16 + d2
                      if 0xDC00 ≤ m ∧ m ≤ 0xDFFF then
                        let cp := 0x10000 + (n - 0xD800) * 0x400 + (m - 0xDC00)
                        (parseStringBody fuel cs4).map (fun r => (Char.ofNat cp :: r.1, r.2))
                      else none
                    | _, _, _, _ => none
                  | _ => none
                else none
              | _, _, _, _ => none
            | _ => none
          else none
      else if c.toNat < 0x20 then none
      else (parseStringBody fuel cs).map (fun r => (c :: r.1, r.2))

/-- Parse an optional exponent part (`e`/`E`, optional sign, one or more
digits); `none` on a malformed exponent, `some rest` after a valid one. -/
def parseExpTail : List Char → Option (List Char)
  | [] => none
  | e :: r =>
    if e = 'e' ∨ e = 'E' then
      let r2 := match r with
        | s :: r' => if s = '+' ∨ s = '-' then r' else r
        | [] => r
      let p := r2.span Char.isDigit
      if p.1 = [] then none else some p.2
    else none

/-- Parse a JSON number (first character is `-` or a digit).  Integral
numbers become `Json.num`; a fractional part or exponent yields `Json.numF`. -/
def parseNumber (s : List Char) : Option (Json × List Char) :=
  let signSplit : Bool × List Char :=
    match s with
    | '-' :: rest => (true, rest)
    | _ => (false, s)
  let neg := signSplit.1
  let s1 := signSplit.2
  match s1 with
  | [] => none
  | c :: _ =>
    if ¬ c.isDigit then none
    else
      let p := s1.span Char.isDigit
      if p.1.length > 1 ∧ p.1.head? = some '0' then none
      else
        let n : Nat := p.1.foldl (fun acc d => acc * 10 + (d.toNat - 48)) 0
        let intVal : Json := Json.num (if neg then -(n : Int) else (n : Int))
        match p.2 with
        | '.' :: r2 =>
          let q := r2.span Char.isDigit
          if q.1 = [] then none
          else
            match q.2 with
            | [] => some (Json.numF, [])
            | e :: _ =>
              if e = 'e' ∨ e = 'E' then
                (parseExpTail q.2).map (fun rest => (Json.numF, rest))
              else some (Json.numF, q.2)
        | e :: _ =>
          if e = 'e' ∨ e = 'E' then
            (parseExpTail p.2).map (fun rest => (Json.numF, rest))
          else some (intVal, p.2)
        | [] => some (intVal, [])

mutual

/-- Parse one JSON value (leading whitespace allowed), with fuel. -/
def parseVal : Nat → List Char → Option (Json × List Char)
  | 0, _ => none
  | fuel + 1, s =>
    match skipWs s with
    | [] => none
    | c :: cs =>
      if c = 'n' then
        match cs with
        | 'u' :: 'l' :: 'l' :: r => some (Json.null, r)
        | _ => none
      else if c = 't' then
        match cs with
        | 'r' :: 'u' :: 'e' :: r => some (Json.bool true, r)
        | _ => none
      else if c = 'f' then
        match cs with
        | 'a' :: 'l' :: 's' :: 'e' :: r => some (Json.bool false, r)
        | _ => none
      else if c = '"' then
        (parseStringBody (cs.length + 1) cs).map (fun r => (Json.str (String.mk r.1), r.2))
      else if c = '[' then
        match skipWs cs with
        | ']' :: r => some (Json.arr [], r)
        | cs2 => (parseElems fuel cs2).map (fun r => (Json.arr r.1, r.2))
      else if c = '\x7b' then
        match skipWs cs with
        | '\x7d' :: r => some (Json.obj [], r)
        | cs2 => (parseMembers fuel cs2).map (fun r => (Json.obj r.1, r.2))
      else if c = '-' ∨ c.isDigit then parseNumber (c :: cs)
      else none

/-- Parse the elements of a non-empty JSON array (up to and including `]`). -/
def parseElems : Nat → List Char → Option (List Json × List Char)
  | 0, _ => none
  | fuel + 1, s =>
    match parseVal fuel s with
    | none => none
    | some (j, rest) =>
      match skipWs rest with
      | ',' :: r2 => (parseElems fuel r2).map (fun r => (j :: r.1, r.2))
      | ']' :: r2 => some ([j], r2)
      | _ => none

/-- Parse the members of a non-empty JSON object (up to the closing brace). -/
def parseMembers : Nat → List Char → Option (List (String × Json) × List Char)
  | 0, _ => none
  | fuel + 1, s =>
    match skipWs s with
    | '"' :: cs =>
      match parseStringBody (cs.length + 1) cs with
      | none => none
      | some (key, rest) =>
        match skipWs rest with
        | ':' :: r2 =>
          match parseVal fuel r2 with
          | none => none
          | some (j, r3) =>
            match skipWs r3 with
            | ',' :: r4 => (parseMembers fuel r4).map (fun r => ((String.mk key, j) :: r.1, r.2))
            | '\x7d' :: r4 => some ([(String.mk key, j)], r4)
            | _ => none
        | _ => none
    | _ => none

end

/-- Model of `serde_json::from_str` up to the `Json` value level: parse a
complete JSON document (no trailing garbage allowed). -/
def Json.parse (s : String) : Option Json :=
  match parseVal (4 * s.data.length + 16) (skipWs s.data) with
  | some (j, rest) => if skipWs rest = [] then some j else none
  | none => none

/-- Lowercase hex digit. -/
def hexDigitLower (n : Nat) : Char :=
  if n < 10 then Char.ofNat (48 + n) else Char.ofNat (87 + n)

/-- serde_json string escaping for one character. -/
def escChar (c : Char) : List Char :=
  if c = '"' then ['\\', '"']
  else if c = '\\' then ['\\', '\\']
  else if c = '\x08' then ['\\', 'b']
  else if c = '\x0c' then ['\\', 'f']
  else if c = '\n' then ['\\', 'n']
  else if c = '\r' then ['\\', 'r']
  else if c = '\t' then ['\\', 't']
  else if c.toNat < 0x20 then
    ['\\', 'u', '0', '0', hexDigitLower (c.toNat / 16), hexDigitLower (c.toNat % 16)]
  else [c]

/-- serde_json string escaping. -/
def escString (s : String) : List Char :=
  (s.data.map escChar).flatten

mutual

/-- Render a JSON value the way serde_json serializes it (compact form). -/
def renderVal : Json → List Char
  | Json.null => "null".data
  | Json.bool true => "true".data
  | Json.bool false => "false".data
  | Json.num n => (toString n).data
  | Json.numF => "0.0".data
  | Json.str s => '"' :: (escString s ++ ['"'])
  | Json.arr xs => '[' :: (renderArr xs ++ [']'])
  | Json.obj fs => '\x7b' :: (renderObj fs ++ ['\x7d'])

/-- Render array elements, comma-separated. -/
def renderArr : List Json → List Char
  | [] => []
  | [x] => renderVal x
  | x :: y :: xs => renderVal x ++ ',' :: renderArr (y :: xs)

/-- Render object members, comma-separated. -/
def renderObj : List (String × Json) → List Char
  | [] => []
  | [(k, v)] => '"' :: (escString k ++ '"' :: ':' :: renderVal v)
  | (k, v) :: f :: fs =>
    ('"' :: (escString k ++ '"' :: ':' :: renderVal v)) ++ ',' :: renderObj (f :: fs)

end

/-- Serialize a JSON value to a string (serde_json compact form). -/
def Json.render (j : Json) : String := String.mk (renderVal j)

/-! ## base64 (the `base64` crate's `STANDARD_NO_PAD` engine) and UTF-8 -/

/-- Value of one standard-alphabet base64 character. -/
def b64Val? (c : Char) : Option Nat :=
  if 'A' ≤ c ∧ c ≤ 'Z' then some (c.toNat - 65)
  else if 'a' ≤ c ∧ c ≤ 'z' then some (c.toNat - 71)
  else if '0' ≤ c ∧ c ≤ '9' then some (c.toNat + 4)
  else if c = '+' then some 62
  else if c = '/' then some 63
  else none

/-- Model of `STANDARD_NO_PAD.decode`: standard alphabet, no padding
accepted, length `% 4 = 1` rejected, non-zero trailing bits rejected. -/
def b64Decode : List Char → Option (List Nat)
  | [] => some []
  | [_] => none
  | [c1, c2] =>
    match b64Val? c1, b64Val? c2 with
    | some a, some b => if b % 16 = 0 then some [a * 4 + b / 16] else none
    | _, _ => none
  | [c1, c2, c3] =>
    match b64Val? c1, b64Val? c2, b64Val? c3 with
    | some a, some b, some c =>
      if c % 4 = 0 then some [a * 4 + b / 16, b % 16 * 16 + c / 4] else none
    | _, _, _ => none
  | c1 :: c2 :: c3 :: c4 :: rest =>
    match b64Val? c1, b64Val? c2, b64Val? c3, b64Val? c4 with
    | some a, some b, some c, some d =>
      (b64Decode rest).map
        (fun bs => (a * 4 + b / 16) :: (b % 16 * 16 + c / 4) :: (c % 4 * 64 + d) :: bs)
    | _, _, _, _ => none

/-- UTF-8 validation and decoding of a byte list (the exact well-formedness
rules of Rust's `String::from_utf8`: shortest form, no surrogates,
code points at most `0x10FFFF`). -/
def utf8Decode : List Nat → Option (List Char)
  | [] => some []
  | b :: bs =>
    if b < 0x80 then (utf8Decode bs).map (fun cs => Char.ofNat b :: cs)
    else if b < 0xC2 then none
    else if b ≤ 0xDF then
      match bs with
      | b2 :: bs2 =>
        if 0x80 ≤ b2 ∧ b2 ≤ 0xBF then
          (utf8Decode bs2).map (fun cs => Char.ofNat ((b - 0xC0) * 64 + (b2 - 0x80)) :: cs)
        else none
      | [] => none
    else if b ≤ 0xEF then
      match bs with
      | b2 :: b3 :: bs2 =>
        let lo2 := if b = 0xE0 then 0xA0 else 0x80
        let hi2 := if b = 0xED then 0x9F else 0xBF
        if lo2 ≤ b2 ∧ b2 ≤ hi2 ∧ 0x80 ≤ b3 ∧ b3 ≤ 0xBF then
          (utf8Decode bs2).map
            (fun cs => Char.ofNat ((b - 0xE0) * 4096 + (b2 - 0x80) * 64 + (b3 - 0x80)) :: cs)
        else none
      | _ => none
    else if b ≤ 0xF4 then
      match bs with
      | b2 :: b3 :: b4 :: bs2 =>
        let lo2 := if b = 0xF0 then 0x90 else 0x80
        let hi2 := if b = 0xF4 then 0x8F else 0xBF
        if lo2 ≤ b2 ∧ b2 ≤ hi2 ∧ 0x80 ≤ b3 ∧ b3 ≤ 0xBF ∧ 0x80 ≤ b4 ∧ b4 ≤ 0xBF then
          (utf8Decode bs2).map
            (fun cs =>
              Char.ofNat ((b - 0xF0) * 262144 + (b2 - 0x80) * 4096 + (b3 - 0x80) * 64 + (b4 - 0x80)) :: cs)
        else none
      | _ => none
    else none

/-- Model of `String::from_utf8(d).unwrap_or_default()`. -/
def utf8StrOrEmpty (bs : List Nat) : String :=
  match utf8Decode bs with
  | some cs => String.mk cs
  | none => ""

/-! ## Data model (`src/client.rs`) -/

/-- `enum ClientError` of `src/client.rs`. -/
inductive ClientError where
  | ConnectionError : ClientError
  | LoginError : ClientError
  | RoomNotFoundError (short_id : String) : ClientError
  | ParserError (msg : String) : ClientError
  | UrlError : ClientError
  deriving DecidableEq, Repr

/-- `struct Feedback` (`pub very_good/good/bad/very_bad: u16`); the `u16`
fields are embedded as `Nat` (values produced by deserialization are always
below `2 ^ 16`). -/
structure Feedback where
  very_good : Nat
  good : Nat
  bad : Nat
  very_bad : Nat
  deriving DecidableEq, Repr

/-- `Feedback::from_values(values: [u16; 4])`; the fixed-size array is
embedded as a 4-tuple. -/
def Feedback.from_values (values : Nat × Nat × Nat × Nat) : Feedback :=
  { very_good := values.1
    good := values.2.1
    bad := values.2.2.1
    very_bad := values.2.2.2 }

/-- `Feedback::count_votes`: `self.very_good + self.good + self.bad +
self.very_bad` on `u16`.  Rust `u16` addition is modulo `2 ^ 16` (it wraps in
release builds; in debug builds an overflowing sum panics instead, so in
neither build does the code return a sum at or above `2 ^ 16`). -/
def Feedback.count_votes (f : Feedback) : Nat :=
  (f.very_good + f.good + f.bad + f.very_bad) % 65536

/-- `enum FeedbackValue`: the four ranks, each with two accepted spellings. -/
inductive FeedbackValue where
  | VeryGood | A | Good | B | Bad | C | VeryBad | D
  deriving DecidableEq, Repr

/-- `FeedbackValue::into_u8`. -/
def FeedbackValue.into_u8 : FeedbackValue → Nat
  | .VeryGood | .A => 0
  | .Good | .B => 1
  | .Bad | .C => 2
  | .VeryBad | .D => 3

/-- `tokio_tungstenite::tungstenite::Message`: the inbound socket message
kinds.  Only `text` satisfies `is_text`. -/
inductive Message where
  | text (s : String) : Message
  | binary (bytes : List Nat) : Message
  | ping (bytes : List Nat) : Message
  | pong (bytes : List Nat) : Message
  | close : Message
  | frame : Message
  deriving DecidableEq

/-- `Message::is_text`. -/
def Message.is_text : Message → Bool
  | .text _ => true
  | _ => false

/-! ## Inbound frame decoding (`WsFeedbackMessage::parse` and the handlers) -/

/-- `struct WsFeedbackPayload { values: [u16; 4] }`. -/
structure WsFeedbackPayload where
  values : Nat × Nat × Nat × Nat
  deriving DecidableEq, Repr

/-- `WsFeedbackPayload::get_feedback`. -/
def WsFeedbackPayload.get_feedback (p : WsFeedbackPayload) : Feedback :=
  Feedback.from_values p.values

/-- `struct WsFeedbackBody { body_type: String, payload: WsFeedbackPayload }`
(the first field is `#[serde(rename = "type")]`). -/
structure WsFeedbackBody where
  body_type : String
  payload : WsFeedbackPayload
  deriving DecidableEq, Repr

/-- `struct WsFeedbackMessage { body: WsFeedbackBody }`. -/
structure WsFeedbackMessage where
  body : WsFeedbackBody
  deriving DecidableEq, Repr

/-- serde `u16` deserialization from a JSON value: an integral number in
`[0, 65535]`. -/
def asU16? : Json → Option Nat
  | Json.num n => if 0 ≤ n ∧ n ≤ 65535 then some n.toNat else none
  | _ => none

/-- Derived serde `Deserialize` for `WsFeedbackPayload`: an object whose
`values` field is an array of exactly four `u16`s (unknown fields ignored). -/
def WsFeedbackPayload.deserialize : Json → Option WsFeedbackPayload
  | Json.obj fields =>
    match lookupField fields "values" with
    | some (Json.arr [v0, v1, v2, v3]) =>
      match asU16? v0, asU16? v1, asU16? v2, asU16? v3 with
      | some a, some b, some c, some d => some ⟨(a, b, c, d)⟩
      | _, _, _, _ => none
    | _ => none
  | _ => none

/-- Derived serde `Deserialize` for `WsFeedbackBody`: an object with a string
`type` field and a `payload` field (unknown fields ignored). -/
def WsFeedbackBody.deserialize : Json → Option WsFeedbackBody
  | Json.obj fields =>
    match lookupField fields "type", lookupField fields "payload" with
    | some (Json.str t), some p =>
      match WsFeedbackPayload.deserialize p with
      | some payload => some ⟨t, payload⟩
      | none => none
    | _, _ => none
  | _ => none

/-- The frame-body extraction inside `WsFeedbackMessage::parse`: split the
raw frame on `"\n\n"`, take the last part, remove every NUL character
(`.replace('\0', "")`), and trim surrounding whitespace. -/
def extractBody (raw : String) : String :=
  String.mk (rustTrim (((splitOnStr raw "\n\n").getLast!).data.filter (fun c => c ≠ '\x00')))

/-- `WsFeedbackMessage::parse`: deserialize the extracted body as a
`WsFeedbackBody`; any failure is `Err(())`, embedded as `none`.  (`split`
always yields at least one part, so the source's `parts.last().unwrap()`
cannot panic.) -/
def WsFeedbackMessage.parse (raw : String) : Option WsFeedbackMessage :=
  match (Json.parse (extractBody raw)).bind WsFeedbackBody.deserialize with
  | some body => some ⟨body⟩
  | none => none

/-- `handle_incoming_feedback_with_sender` (and `_with_fn`, which is
identical except for how the snapshot is delivered): the list of `Feedback`
snapshots handed to the configured handler for one inbound message.  The
result of `tx.send` is discarded by the source (`let _ = ...`), so delivery
is modelled by the list alone. -/
def handle_incoming_feedback_with_sender (msg : Message) : List Feedback :=
  match msg with
  | Message.text s =>
    if "MESSAGE".data.isPrefixOf s.data then
      match WsFeedbackMessage.parse s with
      | some m =>
        if m.body.body_type = "FeedbackChanged" then [m.body.payload.get_feedback] else []
      | none => []
    else []
  | _ => []

/-! ## Outbound frame encoding (`WsCreateFeedbackMessage`) -/

/-- `struct WsCreateFeedbackMessage { room_id, user_id, value: u8 }`. -/
structure WsCreateFeedbackMessage where
  room_id : String
  user_id : String
  value : Nat
  deriving DecidableEq, Repr

/-- `WsCreateFeedbackMessage::new`. -/
def WsCreateFeedbackMessage.new (room_id user_id : String) (value : FeedbackValue) :
    WsCreateFeedbackMessage :=
  ⟨room_id, user_id, value.into_u8⟩

/-- The `json!` payload of the SEND frame, serialized by serde_json.  The
default `serde_json::Value` object is a `BTreeMap`, so keys appear in
lexicographic order: `payload` before `type`, and `roomId`, `userId`,
`value` inside the payload. -/
def WsCreateFeedbackMessage.payloadJson (m : WsCreateFeedbackMessage) : Json :=
  Json.obj
    [("payload",
      Json.obj
        [("roomId", Json.str m.room_id),
         ("userId", Json.str m.user_id),
         ("value", Json.num m.value)]),
     ("type", Json.str "CreateFeedback")]

/-- `impl Display for WsCreateFeedbackMessage`: the SEND frame text.  The
`content-length` header is `payload.chars().count()` (a character count,
which is exactly `String.length` of the rendered payload), and the frame is
terminated by a NUL byte. -/
def WsCreateFeedbackMessage.display (m : WsCreateFeedbackMessage) : String :=
  "SEND\ndestination:/queue/feedback.command\ncontent-type:application/json\ncontent-length:"
    ++ toString m.payloadJson.render.length ++ "\n\n" ++ m.payloadJson.render ++ "\x00"

/-! ## Token handling (`Client::<LoggedIn>::get_user_id`) -/

/-- `struct TokenClaim { sub: String }`. -/
structure TokenClaim where
  sub : String
  deriving DecidableEq, Repr

/-- Derived serde `Deserialize` for `TokenClaim`. -/
def TokenClaim.deserialize : Json → Option TokenClaim
  | Json.obj fields =>
    match lookupField fields "sub" with
    | some (Json.str s) => some ⟨s⟩
    | _ => none
  | _ => none

/-- `Client::<LoggedIn>::get_user_id`, as a function of the stored token.
The source never unwraps the token here (`unwrap_or_default`), decodes the
segment after the first `.` (`token_parts.nth(1)`) as non-padded base64,
turns the bytes into a string (`String::from_utf8(..).unwrap_or_default()`),
and deserializes a `TokenClaim`; every failure is a `ParserError`, so the
function is total — it cannot panic. -/
def get_user_id (token : Option String) : Except ClientError String :=
  let tok := token.getD ""
  match (splitOnStr tok ".")[1]? with
  | none => Except.error (ClientError.ParserError "Unparsable token")
  | some part =>
    match b64Decode part.data with
    | none => Except.error (ClientError.ParserError "Unparsable token: invalid base64")
    | some bytes =>
      match (Json.parse (utf8StrOrEmpty bytes)).bind TokenClaim.deserialize with
      | some claim => Except.ok claim.sub
      | none => Except.error (ClientError.ParserError "Unparsable token claim: invalid claim")

/-! ## HTTP request/response handling -/

/-- Outcome of one `reqwest` exchange, as the program observes it: either a
transport error (`Err(_)` from `send()`) or a response with a status code
and a body. -/
inductive HttpOutcome where
  | transportError : HttpOutcome
  | response (status : Nat) (body : String) : HttpOutcome

/-- `struct LoginResponse { token: String }`. -/
structure LoginResponse where
  token : String
  deriving DecidableEq, Repr

/-- Derived serde `Deserialize` for `LoginResponse`. -/
def LoginResponse.deserialize : Json → Option LoginResponse
  | Json.obj fields =>
    match lookupField fields "token" with
    | some (Json.str s) => some ⟨s⟩
    | _ => none
  | _ => none

/-- `struct MembershipResponse { id, short_id, name }` (the last two renamed
from `shortId` / `name`). -/
structure MembershipResponse where
  id : String
  short_id : String
  name : String
  deriving DecidableEq, Repr

/-- Derived serde `Deserialize` for `MembershipResponse`. -/
def MembershipResponse.deserialize : Json → Option MembershipResponse
  | Json.obj fields =>
    match lookupField fields "id", lookupField fields "shortId", lookupField fields "name" with
    | some (Json.str i), some (Json.str s), some (Json.str n) => some ⟨i, s, n⟩
    | _, _, _ => none
  | _ => none

/-- `struct RoomInfo`. -/
structure RoomInfo where
  id : String
  short_id : String
  name : String
  description : String
  deriving DecidableEq, Repr

/-- `struct RoomStats` (`usize` fields embedded as `Nat`). -/
structure RoomStats where
  content_count : Nat
  ack_comment_count : Nat
  room_user_count : Nat
  deriving DecidableEq, Repr

/-- serde `usize` deserialization (64-bit): an integral number in
`[0, 2 ^ 64)`. -/
def asUsize? : Json → Option Nat
  | Json.num n => if 0 ≤ n ∧ n < 18446744073709551616 then some n.toNat else none
  | _ => none

/-- Derived serde `Deserialize` for `RoomStats`. -/
def RoomStats.deserialize : Json → Option RoomStats
  | Json.obj fields =>
    match lookupField fields "contentCount", lookupField fields "ackCommentCount",
        lookupField fields "roomUserCount" with
    | some c, some a, some r =>
      match asUsize? c, asUsize? a, asUsize? r with
      | some cc, some ac, some rc => some ⟨cc, ac, rc⟩
      | _, _, _ => none
    | _, _, _ => none
  | _ => none

/-- `struct SummaryResponse { stats: RoomStats }`. -/
structure SummaryResponse where
  stats : RoomStats
  deriving DecidableEq, Repr

/-- Derived serde `Deserialize` for `SummaryResponse`. -/
def SummaryResponse.deserialize : Json → Option SummaryResponse
  | Json.obj fields =>
    match lookupField fields "stats" with
    | some s =>
      match RoomStats.deserialize s with
      | some stats => some ⟨stats⟩
      | none => none
    | _ => none
  | _ => none

/-- serde `Deserialize` for `Vec<SummaryResponse>`: a JSON array, every
element a `SummaryResponse`. -/
def deserializeSummaryList : Json → Option (List SummaryResponse)
  | Json.arr xs => xs.mapM SummaryResponse.deserialize
  | _ => none

/-- The generic placeholder for the message a serde/reqwest decode error is
displayed as (`err.to_string()`); its content is not constrained by the
specification. -/
def decodeErrMsg : String := "error decoding response body"

/-- `Client::<LoggedOut>::guest_login`, as a function of the HTTP outcome of
`POST {api_url}/auth/login/guest`: a transport error is a `ConnectionError`;
otherwise the body is decoded as a `LoginResponse` (the status code is never
inspected), a decode failure is a `LoginError`, and on success the received
token is returned (it becomes the `LoggedIn` client's `token` field). -/
def guest_login (resp : HttpOutcome) : Except ClientError String :=
  match resp with
  | HttpOutcome.transportError => Except.error ClientError.ConnectionError
  | HttpOutcome.response _ body =>
    match (Json.parse body).bind LoginResponse.deserialize with
    | some lr => Except.ok lr.token
    | none => Except.error ClientError.LoginError

/-- `Client::<LoggedIn>::get_room_info`, as a function of the stored token
and the HTTP outcome of the request-membership call.  The source starts with
`self.token.as_ref().unwrap()`: a missing token is a panic, embedded as the
outer `none`.  Then: status 200 ⇒ decode a `MembershipResponse` (decode
failure ⇒ `ParserError`), 404 ⇒ `RoomNotFoundError(short_id)`, any other
status or a transport error ⇒ `ConnectionError`.  On success the
`RoomInfo` is built from the response with an empty description. -/
def get_room_info (token : Option String) (short_id : String) (resp : HttpOutcome) :
    Option (Except ClientError RoomInfo) :=
  match token with
  | none => none
  | some _ =>
    some
      (match resp with
      | HttpOutcome.transportError => Except.error ClientError.ConnectionError
      | HttpOutcome.response status body =>
        if status = 200 then
          match (Json.parse body).bind MembershipResponse.deserialize with
          | some m => Except.ok ⟨m.id, m.short_id, m.name, ""⟩
          | none => Except.error (ClientError.ParserError decodeErrMsg)
        else if status = 404 then Except.error (ClientError.RoomNotFoundError short_id)
        else Except.error ClientError.ConnectionError)

/-- `Client::<LoggedIn>::get_room_stats`, as a function of the stored token
and the HTTP outcomes of its two requests.  After a successful room
resolution: status 200 ⇒ decode a `Vec<SummaryResponse>` (decode failure ⇒
`ParserError`) and take `summary_response.first().unwrap().stats` — the
`unwrap` panics on an empty array, embedded as the outer `none`; 404 ⇒
`RoomNotFoundError(short_id)`; any other status or a transport error ⇒
`ConnectionError`. -/
def get_room_stats (token : Option String) (short_id : String)
    (roomResp statsResp : HttpOutcome) : Option (Except ClientError RoomStats) :=
  match get_room_info token short_id roomResp with
  | none => none
  | some (Except.error e) => some (Except.error e)
  | some (Except.ok _) =>
    match statsResp with
    | HttpOutcome.transportError => some (Except.error ClientError.ConnectionError)
    | HttpOutcome.response status body =>
      if status = 200 then
        match (Json.parse body).bind deserializeSummaryList with
        | some [] => none
        | some (x :: _) => some (Except.ok x.stats)
        | none => some (Except.error (ClientError.ParserError decodeErrMsg))
      else if status = 404 then some (Except.error (ClientError.RoomNotFoundError short_id))
      else some (Except.error ClientError.ConnectionError)

/-! ## Websocket endpoint derivation -/

/-- The websocket URL built by `register_feedback_receiver` and
`on_feedback_changed`: `self.api_url.replace("http", "ws")` followed by
`/ws/websocket`.  Note the `replace` rewrites every occurrence of the
substring `"http"`, not only the scheme. -/
def wsUrlOf (api_url : String) : String :=
  rustReplace api_url "http" "ws" ++ "/ws/websocket"

/-! ## The streaming `select!` loops

Each `loop { select! { ... } }` of the source is embedded as a step function
on the events its `select!` races.  One event is one iteration: the arm that
fired.  A stream/channel that is exhausted (`read.next()` yielding `None`,
`rx.recv()` yielding `None` on a closed channel) fails the `Some(..) = ..`
pattern of its branch, which merely disables that branch for the current
`select!`; the loop body runs again, so the step result is a continuation,
not a stop.  `Step.stop` is produced exactly by an explicit `break`. -/

/-- What the inbound socket read of one iteration yielded: a message, an
unrecoverable transport error (`Err(_)`), or the end of the stream
(`read.next()` returning `None`). -/
inductive ReadEvent where
  | ok (m : Message) : ReadEvent
  | err : ReadEvent
  | ended : ReadEvent
  deriving DecidableEq

/-- What the outbound-vote channel of one iteration yielded: a vote, or
`None` because the channel is closed. -/
inductive VoteEvent where
  | recv (v : FeedbackValue) : VoteEvent
  | closed : VoteEvent
  deriving DecidableEq

/-- Result of one loop iteration: `stop` for `break`, otherwise the
snapshots delivered to the handler and the texts written to the socket
during the iteration (write results are discarded by the source). -/
inductive Step where
  | stop : Step
  | next (delivered : List Feedback) (writes : List String) : Step

/-- `true` iff the iteration ended the loop. -/
def Step.isStop : Step → Bool
  | .stop => true
  | .next _ _ => false

/-- Events of the `FeedbackHandler::Fn` / `FeedbackHandler::Sender` loops of
`on_feedback_changed`: a socket read or the keep-alive timer. -/
inductive SenderLoopEvent where
  | read (r : ReadEvent) : SenderLoopEvent
  | timer : SenderLoopEvent
  deriving DecidableEq

/-- Events of the `FeedbackHandler::SenderReceiver` loop of
`on_feedback_changed`: a socket read, the outbound-vote channel, or the
keep-alive timer. -/
inductive DualLoopEvent where
  | read (r : ReadEvent) : DualLoopEvent
  | vote (v : VoteEvent) : DualLoopEvent
  | timer : DualLoopEvent
  deriving DecidableEq

/-- Events of the `register_feedback_receiver` loop: the vote channel or the
keep-alive timer (this loop performs no socket reads). -/
inductive RegisterLoopEvent where
  | vote (v : VoteEvent) : RegisterLoopEvent
  | timer : RegisterLoopEvent
  deriving DecidableEq

/-- One iteration of the `FeedbackHandler::Sender` (and, with a callback in
place of the channel, `FeedbackHandler::Fn`) loop of `on_feedback_changed`:
`Ok(msg)` is handled, `Err(_)` breaks, end-of-stream disables the branch,
the timer writes a `"\n"` keep-alive. -/
def onFeedbackSenderArm : SenderLoopEvent → Step
  | .read (.ok m) => Step.next (handle_incoming_feedback_with_sender m) []
  | .read .err => Step.stop
  | .read .ended => Step.next [] []
  | .timer => Step.next [] ["\n"]

/-- One iteration of the `FeedbackHandler::SenderReceiver` loop of
`on_feedback_changed` (`room_id`, `user_id` as resolved at that point): as
the sender arm, plus an arriving vote is encoded as a SEND frame and
written; a closed vote channel only disables that branch. -/
def onFeedbackDualArm (room_id user_id : String) : DualLoopEvent → Step
  | .read (.ok m) => Step.next (handle_incoming_feedback_with_sender m) []
  | .read .err => Step.stop
  | .read .ended => Step.next [] []
  | .vote (.recv v) =>
    Step.next [] [(WsCreateFeedbackMessage.new room_id user_id v).display]
  | .vote .closed => Step.next [] []
  | .timer => Step.next [] ["\n"]

/-- One iteration of the `register_feedback_receiver` loop: a vote is
encoded and written, a closed channel only disables that branch, the timer
writes a keep-alive.  No arm of this loop contains a `break`. -/
def registerReceiverArm (room_id user_id : String) : RegisterLoopEvent → Step
  | .vote (.recv v) =>
    Step.next [] [(WsCreateFeedbackMessage.new room_id user_id v).display]
  | .vote .closed => Step.next [] []
  | .timer => Step.next [] ["\n"]

/-! ## The typestate credential (`Client<LoggedOut>` / `Client<LoggedIn>`) -/

/-- The credential state visible through the typestate wrapper: the optional
token and which typestate the value has.  `Client::new` produces
`⟨none, false⟩`. -/
structure ClientModel where
  token : Option String
  logged_in : Bool
  deriving DecidableEq, Repr

/-- The operations of the public client API that take or return the client,
labelled with the observed HTTP outcomes where relevant. -/
inductive ClientOp where
  | guestLogin (resp : HttpOutcome) : ClientOp
  | logout : ClientOp
  | getUserId : ClientOp
  | getRoomInfo (short_id : String) (resp : HttpOutcome) : ClientOp
  | getRoomStats (short_id : String) (roomResp statsResp : HttpOutcome) : ClientOp

/-- The state transition of one operation.  `none` means the operation is
not available in this typestate (`guest_login` exists only on
`Client<LoggedOut>`, everything else only on `Client<LoggedIn>`) or that the
failing `guest_login` consumed the client.  The read-only `&self` operations
leave the state unchanged. -/
def opStep (c : ClientModel) : ClientOp → Option ClientModel
  | ClientOp.guestLogin resp =>
    if c.logged_in then none
    else
      match guest_login resp with
      | Except.ok tok => some ⟨some tok, true⟩
      | Except.error _ => none
  | ClientOp.logout => if c.logged_in then some ⟨none, false⟩ else none
  | ClientOp.getUserId => if c.logged_in then some c else none
  | ClientOp.getRoomInfo _ _ => if c.logged_in then some c else none
  | ClientOp.getRoomStats _ _ _ => if c.logged_in then some c else none

/-- Client states reachable through the public API, starting from
`Client::new`. -/
inductive Reachable : ClientModel → Prop
  | new : Reachable ⟨none, false⟩
  | step {c c' : ClientModel} {op : ClientOp} :
      Reachable c → opStep c op = some c' → Reachable c'

/-! ## Helper lemmas -/

/-- If `pat` occurs nowhere in `s`, `replaceAux` leaves `s` unchanged
(whatever the fuel). -/
theorem replaceAux_eq_of_not_hasSubSeq (pat rep : List Char) :
    ∀ (fuel : Nat) (s : List Char), hasSubSeq pat s = false →
      replaceAux pat rep fuel s = s := by
  intro fuel
  induction fuel with
  | zero =>
    intro s _
    cases s with
    | nil => rfl
    | cons c cs => rfl
  | succ n ih =>
    intro s h
    cases s with
    | nil => rfl
    | cons c cs =>
      have h' : pat.isPrefixOf (c :: cs) = false ∧ hasSubSeq pat cs = false := by
        simpa [hasSubSeq] using h
      have hcond : ¬(pat.isPrefixOf (c :: cs) = true ∧ pat ≠ []) := by
        intro hc
        rw [h'.1] at hc
        exact Bool.false_ne_true hc.1
      simp only [replaceAux]
      rw [if_neg hcond, ih cs h'.2]

/-- `replaceAux` on input starting with the (non-empty) pattern substitutes
the replacement and proceeds past the pattern. -/
theorem replaceAux_cons_append (p : Char) (ps rep t : List Char) (fuel : Nat) :
    replaceAux (p :: ps) rep (fuel + 1) (p :: (ps ++ t)) =
      rep ++ replaceAux (p :: ps) rep fuel t := by
  have hpre : (p :: ps).isPrefixOf (p :: (ps ++ t)) = true := by
    rw [List.isPrefixOf_iff_prefix]
    exact List.prefix_append (p :: ps) t
  have hdrop : (p :: (ps ++ t)).drop (p :: ps).length = t :=
    List.drop_left (p :: ps) t
  simp only [replaceAux]
  rw [if_pos ⟨hpre, by simp⟩, hdrop]

/-- serde `u16` deserialization succeeds on any natural number at most
`65535`. -/
theorem asU16_of_le (a : Nat) (h : a ≤ 65535) : asU16? (Json.num (a : Int)) = some a := by
  simp only [asU16?]
  rw [if_pos]
  · simp
  · exact ⟨Int.ofNat_nonneg a, by exact_mod_cast h⟩

/-! ## The claims -/

/-- C7 (counterexample): a `Feedback` whose fields are valid `u16` values
summing to `2 ^ 16` does not get its exact arithmetic sum from
`count_votes` — the `u16` addition wraps (release) or panics (debug). -/
theorem C7_counterexample :
    (Feedback.mk 65535 1 0 0).count_votes = 0 ∧
      (Feedback.mk 65535 1 0 0).count_votes ≠ 65535 + 1 + 0 + 0 := by
  constructor
  · rfl
  · decide

/-- C7 (amended): `Feedback.count_votes` equals the exact arithmetic sum of
the four fields whenever that sum fits in a `u16` (in particular for the
all-zero snapshot); on larger sums the `u16` addition wraps modulo
`2 ^ 16` instead. -/
theorem C7_count_votes (f : Feedback)
    (h : f.very_good + f.good + f.bad + f.very_bad < 65536) :
    f.count_votes = f.very_good + f.good + f.bad + f.very_bad :=
  Nat.mod_eq_of_lt h

/-- C7 (witness): the all-zero snapshot has zero total votes. -/
theorem C7_witness : (0 + 0 + 0 + 0 < 65536) ∧ (Feedback.mk 0 0 0 0).count_votes = 0 + 0 + 0 + 0 :=
  ⟨by decide, C7_count_votes ⟨0, 0, 0, 0⟩ (by decide)⟩

/-- C9 (counterexample): the socket endpoint is derived with
`api_url.replace("http", "ws")`, which rewrites every occurrence of the
substring `"http"`, so a base URL whose path contains `"http"` does not keep
its path unchanged: the claim's predicted endpoint for
`http://example.com/http` is `ws://example.com/http/ws/websocket`, but the
code produces `ws://example.com/ws/ws/websocket`. -/
theorem C9_counterexample :
    wsUrlOf "http://example.com/http" = "ws://example.com/ws/ws/websocket" ∧
      wsUrlOf "http://example.com/http" ≠ "ws://example.com/http/ws/websocket" := by
  constructor
  · rfl
  · decide

/-- C9 (amended): the streaming endpoint is the REST endpoint with every
occurrence of the substring `"http"` replaced by `"ws"` and `/ws/websocket`
appended.  When `"http"` occurs only as the leading scheme prefix (the
remainder of the URL contains no further `"http"`), this is exactly the
claimed scheme swap (`http→ws`, and `https→wss`, the remainder then starting
with `s`) with host, port and path unchanged. -/
theorem C9_ws_url (t : List Char) (h : hasSubSeq "http".data t = false) :
    wsUrlOf (String.mk ("http".data ++ t)) = String.mk ("ws".data ++ t) ++ "/ws/websocket" := by
  unfold wsUrlOf rustReplace
  have hlen : ("http".data ++ t).length = (3 + t.length) + 1 := by
    simp [List.length_append]
    omega
  have hstep :
      replaceAux "http".data "ws".data (("http".data ++ t).length) ("http".data ++ t) =
        "ws".data ++ t := by
    rw [hlen]
    have := replaceAux_cons_append 'h' "ttp".data "ws".data t (3 + t.length)
    simp only [show ("http".data : List Char) = 'h' :: "ttp".data from rfl]
    rw [show ('h' :: "ttp".data) ++ t = 'h' :: ("ttp".data ++ t) from rfl]
    rw [this]
    rw [replaceAux_eq_of_not_hasSubSeq _ _ _ _ (by simpa using h)]
  show String.mk (replaceAux "http".data "ws".data (String.mk ("http".data ++ t)).data.length
      (String.mk ("http".data ++ t)).data) ++ "/ws/websocket" = _
  rw [show (String.mk ("http".data ++ t)).data = "http".data ++ t from rfl]
  rw [hstep]

/-- C9 (witness): an `https` endpoint whose remainder contains no further
`"http"` gets exactly the scheme swap to `wss` plus the fixed path. -/
theorem C9_witness :
    hasSubSeq "http".data "s://example.com".data = false ∧
      wsUrlOf "https://example.com" = "wss://example.com/ws/websocket" := by
  constructor
  · rfl
  · have h := C9_ws_url "s://example.com".data (by rfl)
    simpa using h

/-- C3: the encoded SEND frame is the fixed command-destination header block
followed by a `content-length` header equal to the character count of the
JSON body, a blank line, the JSON body carrying `roomId`, `userId` and
`value` (the vote rank's 0–3 ordinal), and a terminating NUL byte; and
`into_u8` maps the two accepted spellings of each rank to the same 0–3
ordinal. -/
theorem C3_send_frame :
    (∀ (room user : String) (v : FeedbackValue),
      (WsCreateFeedbackMessage.new room user v).display =
        "SEND\ndestination:/queue/feedback.command\ncontent-type:application/json\ncontent-length:"
          ++ toString (WsCreateFeedbackMessage.new room user v).payloadJson.render.length
          ++ "\n\n" ++ (WsCreateFeedbackMessage.new room user v).payloadJson.render ++ "\x00"
      ∧ (WsCreateFeedbackMessage.new room user v).payloadJson =
          Json.obj
            [("payload",
              Json.obj
                [("roomId", Json.str room), ("userId", Json.str user),
                 ("value", Json.num v.into_u8)]),
             ("type", Json.str "CreateFeedback")])
    ∧ (FeedbackValue.into_u8 .VeryGood = 0 ∧ FeedbackValue.into_u8 .A = 0
      ∧ FeedbackValue.into_u8 .Good = 1 ∧ FeedbackValue.into_u8 .B = 1
      ∧ FeedbackValue.into_u8 .Bad = 2 ∧ FeedbackValue.into_u8 .C = 2
      ∧ FeedbackValue.into_u8 .VeryBad = 3 ∧ FeedbackValue.into_u8 .D = 3) :=
  ⟨fun _ _ _ => ⟨rfl, rfl⟩, by decide⟩

/-- C2: an inbound message that is not a text frame, or whose text does not
start with `MESSAGE`, or whose body fails to parse, or whose parsed `type`
is not `"FeedbackChanged"`, produces no snapshot; and a successfully read
message never terminates the processing loop. -/
theorem C2_silent_drop :
    (∀ msg : Message, msg.is_text = false →
      handle_incoming_feedback_with_sender msg = [])
    ∧ (∀ s : String, "MESSAGE".data.isPrefixOf s.data = false →
        handle_incoming_feedback_with_sender (Message.text s) = [])
    ∧ (∀ s : String, WsFeedbackMessage.parse s = none →
        handle_incoming_feedback_with_sender (Message.text s) = [])
    ∧ (∀ (s : String) (m : WsFeedbackMessage), WsFeedbackMessage.parse s = some m →
        m.body.body_type ≠ "FeedbackChanged" →
        handle_incoming_feedback_with_sender (Message.text s) = [])
    ∧ (∀ msg : Message, (onFeedbackSenderArm (SenderLoopEvent.read (ReadEvent.ok msg))).isStop
        = false) := by
  refine ⟨?_, ?_, ?_, ?_, ?_⟩
  · intro msg h
    cases msg <;> simp_all [Message.is_text, handle_incoming_feedback_with_sender]
  · intro s h
    simp [handle_incoming_feedback_with_sender, h]
  · intro s h
    by_cases hp : "MESSAGE".data.isPrefixOf s.data = true
    · simp [handle_incoming_feedback_with_sender, hp, h]
    · simp [handle_incoming_feedback_with_sender, hp]
  · intro s m hm hne
    by_cases hp : "MESSAGE".data.isPrefixOf s.data = true
    · simp [handle_incoming_feedback_with_sender, hp, hm, hne]
    · simp [handle_incoming_feedback_with_sender, hp]
  · intro msg
    rfl

/-- C2 (witness): concrete discarded frames — a binary frame, a non-MESSAGE
text frame, a MESSAGE frame with an unparsable body, and a MESSAGE frame of
a different type — each yield no snapshot. -/
theorem C2_witness :
    handle_incoming_feedback_with_sender (Message.binary [1, 2]) = []
    ∧ handle_incoming_feedback_with_sender (Message.text "CONNECTED\nversion:1.2\n\n\x00") = []
    ∧ handle_incoming_feedback_with_sender (Message.text "MESSAGE\n\nnot json\x00") = []
    ∧ handle_incoming_feedback_with_sender
        (Message.text "MESSAGE\n\n\x7b\"type\":\"Other\",\"payload\":\x7b\"values\":[1,2,3,4]\x7d\x7d\x00") = [] := by
  refine ⟨C2_silent_drop.1 (Message.binary [1, 2]) rfl, ?_, ?_, ?_⟩
  · exact C2_silent_drop.2.1 "CONNECTED\nversion:1.2\n\n\x00" rfl
  · exact C2_silent_drop.2.2.1 "MESSAGE\n\nnot json\x00" rfl
  · exact C2_silent_drop.2.2.2.1 "MESSAGE\n\n\x7b\"type\":\"Other\",\"payload\":\x7b\"values\":[1,2,3,4]\x7d\x7d\x00"
      ⟨⟨"Other", ⟨(1, 2, 3, 4)⟩⟩⟩ rfl (by decide)

/-- C8 (counterexample): in the dual-direction (`SenderReceiver`) variant,
the outbound-vote channel closing does not terminate the loop — the
`Some(value) = rx.recv()` pattern merely fails and disables that branch —
and neither does the inbound socket stream ending (`read.next()` returning
`None`); only a read `Err(_)` reaches a `break`. -/
theorem C8_counterexample :
    (onFeedbackDualArm "room-1" "user-1" (DualLoopEvent.vote VoteEvent.closed)).isStop = false
    ∧ (onFeedbackDualArm "room-1" "user-1" (DualLoopEvent.read ReadEvent.ended)).isStop = false :=
  ⟨rfl, rfl⟩

/-- C8 (amended): the `on_feedback_changed` loops (single- and
dual-direction alike) terminate exactly on an inbound socket read error;
closure of a channel (the vote channel in the dual variant, or the socket
stream ending) never terminates them, and the `register_feedback_receiver`
loop has no terminating iteration at all. -/
theorem C8_loop_termination (room user : String) :
    (∀ e : DualLoopEvent,
      (onFeedbackDualArm room user e).isStop = true ↔ e = DualLoopEvent.read ReadEvent.err)
    ∧ (∀ e : SenderLoopEvent,
      (onFeedbackSenderArm e).isStop = true ↔ e = SenderLoopEvent.read ReadEvent.err)
    ∧ (∀ e : RegisterLoopEvent, (registerReceiverArm room user e).isStop = false) := by
  refine ⟨?_, ?_, ?_⟩
  · intro e
    cases e with
    | read r => cases r <;> simp [onFeedbackDualArm, Step.isStop]
    | vote v => cases v <;> simp [onFeedbackDualArm, Step.isStop]
    | timer => simp [onFeedbackDualArm, Step.isStop]
  · intro e
    cases e with
    | read r => cases r <;> simp [onFeedbackSenderArm, Step.isStop]
    | timer => simp [onFeedbackSenderArm, Step.isStop]
  · intro e
    cases e with
    | vote v => cases v <;> simp [registerReceiverArm, Step.isStop]
    | timer => simp [registerReceiverArm, Step.isStop]

/-- C8 (witness): a read error does terminate the dual-direction loop. -/
theorem C8_witness :
    (onFeedbackDualArm "room-1" "user-1" (DualLoopEvent.read ReadEvent.err)).isStop = true :=
  ((C8_loop_termination "room-1" "user-1").1 (DualLoopEvent.read ReadEvent.err)).mpr rfl

/-- C1 (counterexample): a MESSAGE text frame whose body is valid JSON with
`type = "FeedbackChanged"` and `payload.values` a 4-element array of
non-negative integers, one of which (`65536`) exceeds `u16::MAX`: the `u16`
deserialization fails, so the frame is silently dropped and no snapshot is
produced, contradicting the claim's promise of a delivered snapshot for
every non-negative integer array. -/
theorem C1_counterexample :
    "MESSAGE".data.isPrefixOf
        ("MESSAGE\ndestination:/topic/x\n\n\x7b\"type\":\"FeedbackChanged\",\"payload\":\x7b\"values\":[65536,0,0,0]\x7d\x7d\x00" : String).data = true
    ∧ Json.parse (extractBody
        "MESSAGE\ndestination:/topic/x\n\n\x7b\"type\":\"FeedbackChanged\",\"payload\":\x7b\"values\":[65536,0,0,0]\x7d\x7d\x00") =
      some (Json.obj
        [("type", Json.str "FeedbackChanged"),
         ("payload", Json.obj [("values",
            Json.arr [Json.num 65536, Json.num 0, Json.num 0, Json.num 0])])])
    ∧ handle_incoming_feedback_with_sender
        (Message.text
          "MESSAGE\ndestination:/topic/x\n\n\x7b\"type\":\"FeedbackChanged\",\"payload\":\x7b\"values\":[65536,0,0,0]\x7d\x7d\x00") = []
    ∧ ([] : List Feedback) ≠ [⟨65536, 0, 0, 0⟩] := by
  refine ⟨rfl, rfl, rfl, ?_⟩
  decide

/-- C1 (amended): for every inbound text frame starting with `MESSAGE`
whose extracted body (after the blank-line split, NUL stripping and
trimming) is valid JSON with `type = "FeedbackChanged"` and
`payload.values` a 4-element array of non-negative integers each at most
`65535` (the `u16` range; larger values make the typed deserialization fail
and the frame is dropped), exactly the snapshot `{a, b, c, d}` is handed to
the configured handler.  The key-distinctness hypotheses keep the model's
first-occurrence field lookup aligned with serde's duplicate-field
rejection. -/
theorem C1_feedback_decode (raw : String) (fields pfields : List (String × Json))
    (a b c d : Nat)
    (hstart : "MESSAGE".data.isPrefixOf raw.data = true)
    (hparse : Json.parse (extractBody raw) = some (Json.obj fields))
    (_hkeys : (fields.map Prod.fst).Nodup)
    (_hpkeys : (pfields.map Prod.fst).Nodup)
    (htype : lookupField fields "type" = some (Json.str "FeedbackChanged"))
    (hpayload : lookupField fields "payload" = some (Json.obj pfields))
    (hvalues : lookupField pfields "values" =
      some (Json.arr [Json.num a, Json.num b, Json.num c, Json.num d]))
    (ha : a ≤ 65535) (hb : b ≤ 65535) (hc : c ≤ 65535) (hd : d ≤ 65535) :
    handle_incoming_feedback_with_sender (Message.text raw) = [⟨a, b, c, d⟩] := by
  have hpd : WsFeedbackPayload.deserialize (Json.obj pfields) = some ⟨(a, b, c, d)⟩ := by
    simp only [WsFeedbackPayload.deserialize, hvalues, asU16_of_le a ha, asU16_of_le b hb,
      asU16_of_le c hc, asU16_of_le d hd]
  have hbd : WsFeedbackBody.deserialize (Json.obj fields) =
      some ⟨"FeedbackChanged", ⟨(a, b, c, d)⟩⟩ := by
    simp only [WsFeedbackBody.deserialize, htype, hpayload, hpd]
  have hmsg : WsFeedbackMessage.parse raw = some ⟨⟨"FeedbackChanged", ⟨(a, b, c, d)⟩⟩⟩ := by
    simp only [WsFeedbackMessage.parse, hparse, Option.some_bind, hbd]
  simp [handle_incoming_feedback_with_sender, hstart, hmsg, WsFeedbackPayload.get_feedback,
    Feedback.from_values]

/-- C1 (witness): the MESSAGE frame carrying values `[3,5,0,1]` yields
exactly the snapshot `{very_good := 3, good := 5, bad := 0, very_bad := 1}`. -/
theorem C1_witness :
    handle_incoming_feedback_with_sender
        (Message.text
          "MESSAGE\ndestination:/topic/x\n\n\x7b\"type\":\"FeedbackChanged\",\"payload\":\x7b\"values\":[3,5,0,1]\x7d\x7d\x00") =
      [⟨3, 5, 0, 1⟩] :=
  C1_feedback_decode
    "MESSAGE\ndestination:/topic/x\n\n\x7b\"type\":\"FeedbackChanged\",\"payload\":\x7b\"values\":[3,5,0,1]\x7d\x7d\x00"
    [("type", Json.str "FeedbackChanged"),
     ("payload", Json.obj [("values", Json.arr [Json.num 3, Json.num 5, Json.num 0, Json.num 1])])]
    [("values", Json.arr [Json.num 3, Json.num 5, Json.num 0, Json.num 1])]
    3 5 0 1 rfl rfl (by decide) (by decide) rfl rfl rfl
    (by decide) (by decide) (by decide) (by decide)

/-- C4 (counterexample): `get_user_id` does not require the three-segment
token shape the claim states: a two-segment token whose second segment is
valid non-padded base64 of a JSON object with a `sub` field succeeds with
that field instead of failing with a Parse error. -/
theorem C4_counterexample :
    (splitOnStr "x.eyJzdWIiOiJhIn0" ".").length = 2 ∧
      get_user_id (some "x.eyJzdWIiOiJhIn0") = Except.ok "a" :=
  ⟨rfl, rfl⟩

/-- C4 (amended): `get_user_id` never panics: it is total, always returning
either the `sub` value or a `ParserError`.  It fails with a Parse error
exactly when the token (empty if absent) has no second dot-separated
segment, or the second segment is not valid non-padded base64, or the
decoded bytes (read as UTF-8, or an empty string if invalid) are not valid
JSON with a string `sub` field; otherwise it returns that field's value.
(The source only demands a second segment — `token_parts.nth(1)` — not the
full three-segment shape.) -/
theorem C4_get_user_id :
    (∀ token : Option String,
      (∃ s, get_user_id token = Except.ok s)
      ∨ (∃ m, get_user_id token = Except.error (ClientError.ParserError m)))
    ∧ (∀ token : Option String, (splitOnStr (token.getD "") ".")[1]? = none →
        get_user_id token = Except.error (ClientError.ParserError "Unparsable token"))
    ∧ (∀ (token : Option String) (part : String),
        (splitOnStr (token.getD "") ".")[1]? = some part → b64Decode part.data = none →
        ∃ m, get_user_id token = Except.error (ClientError.ParserError m))
    ∧ (∀ (token : Option String) (part : String) (bytes : List Nat),
        (splitOnStr (token.getD "") ".")[1]? = some part → b64Decode part.data = some bytes →
        (Json.parse (utf8StrOrEmpty bytes)).bind TokenClaim.deserialize = none →
        ∃ m, get_user_id token = Except.error (ClientError.ParserError m))
    ∧ (∀ (token : Option String) (part : String) (bytes : List Nat) (claim : TokenClaim),
        (splitOnStr (token.getD "") ".")[1]? = some part → b64Decode part.data = some bytes →
        (Json.parse (utf8StrOrEmpty bytes)).bind TokenClaim.deserialize = some claim →
        get_user_id token = Except.ok claim.sub) := by
  refine ⟨?_, ?_, ?_, ?_, ?_⟩
  · intro token
    cases h1 : (splitOnStr (token.getD "") ".")[1]? with
    | none => exact Or.inr ⟨"Unparsable token", by simp only [get_user_id, h1]⟩
    | some part =>
      cases h2 : b64Decode part.data with
      | none =>
        exact Or.inr ⟨"Unparsable token: invalid base64", by simp only [get_user_id, h1, h2]⟩
      | some bytes =>
        cases h3 : (Json.parse (utf8StrOrEmpty bytes)).bind TokenClaim.deserialize with
        | none =>
          exact Or.inr
            ⟨"Unparsable token claim: invalid claim", by simp only [get_user_id, h1, h2, h3]⟩
        | some claim => exact Or.inl ⟨claim.sub, by simp only [get_user_id, h1, h2, h3]⟩
  · intro token h1
    simp only [get_user_id, h1]
  · intro token part h1 h2
    exact ⟨"Unparsable token: invalid base64", by simp only [get_user_id, h1, h2]⟩
  · intro token part bytes h1 h2 h3
    exact ⟨"Unparsable token claim: invalid claim", by simp only [get_user_id, h1, h2, h3]⟩
  · intro token part bytes claim h1 h2 h3
    simp only [get_user_id, h1, h2, h3]

/-- C4 (witness): a well-formed three-segment token yields its `sub`. -/
theorem C4_witness : get_user_id (some "h.eyJzdWIiOiJhIn0.s") = Except.ok "a" :=
  C4_get_user_id.2.2.2.2 (some "h.eyJzdWIiOiJhIn0.s") "eyJzdWIiOiJhIn0"
    [123, 34, 115, 117, 98, 34, 58, 34, 97, 34, 125] ⟨"a"⟩ rfl rfl rfl

/-- Reachable logged-in clients always hold a token: `guest_login` is the
only transition into the logged-in typestate and it stores the received
token. -/
theorem reachable_token {c : ClientModel} (h : Reachable c) :
    c.logged_in = true → c.token.isSome = true := by
  induction h with
  | new => intro hl; exact absurd hl (by simp)
  | @step c c' op h1 h2 ih =>
    intro hl
    cases op with
    | guestLogin resp =>
      simp only [opStep] at h2
      by_cases hli : c.logged_in
      · rw [if_pos hli] at h2; exact absurd h2 (by simp)
      · rw [if_neg hli] at h2
        cases hg : guest_login resp with
        | ok tok => rw [hg] at h2; cases h2; rfl
        | error e => rw [hg] at h2; cases h2
    | logout =>
      simp only [opStep] at h2
      by_cases hli : c.logged_in
      · rw [if_pos hli] at h2; cases h2; exact absurd hl (by simp)
      · rw [if_neg hli] at h2; cases h2
    | getUserId =>
      simp only [opStep] at h2
      by_cases hli : c.logged_in
      · rw [if_pos hli] at h2; cases h2; exact ih hl
      · rw [if_neg hli] at h2; cases h2
    | getRoomInfo short resp =>
      simp only [opStep] at h2
      by_cases hli : c.logged_in
      · rw [if_pos hli] at h2; cases h2; exact ih hl
      · rw [if_neg hli] at h2; cases h2
    | getRoomStats short r1 r2 =>
      simp only [opStep] at h2
      by_cases hli : c.logged_in
      · rw [if_pos hli] at h2; cases h2; exact ih hl
      · rw [if_neg hli] at h2; cases h2

/-- C5: (i) every client state reachable through the public API that is in
the logged-in typestate holds a token, so the token-requiring operations
never see an absent token; (ii) the only operation that can move a client
from an absent token to a present one is `guest_login`; (iii) `get_user_id`
with an absent token fails fast with a typed `ParserError`, not a crash;
(iv) on every reachable logged-in client, `get_room_info` (whose source
starts with `token.unwrap()`) never reaches its panic case, whatever the
request outcome. -/
theorem C5_token_invariant :
    (∀ c : ClientModel, Reachable c → c.logged_in = true → c.token.isSome = true)
    ∧ (∀ (c : ClientModel) (op : ClientOp) (c' : ClientModel),
        opStep c op = some c' → c.token = none → c'.token.isSome = true →
        ∃ resp, op = ClientOp.guestLogin resp)
    ∧ get_user_id none = Except.error (ClientError.ParserError "Unparsable token")
    ∧ (∀ (c : ClientModel) (short : String) (resp : HttpOutcome),
        Reachable c → c.logged_in = true →
        (get_room_info c.token short resp).isSome = true) := by
  refine ⟨fun c h => reachable_token h, ?_, rfl, ?_⟩
  · intro c op c' hstep htok hsome
    cases op with
    | guestLogin resp => exact ⟨resp, rfl⟩
    | logout =>
      simp only [opStep] at hstep
      by_cases hli : c.logged_in
      · rw [if_pos hli] at hstep; cases hstep; exact absurd hsome (by simp)
      · rw [if_neg hli] at hstep; cases hstep
    | getUserId =>
      simp only [opStep] at hstep
      by_cases hli : c.logged_in
      · rw [if_pos hli] at hstep; cases hstep; rw [htok] at hsome; exact absurd hsome (by simp)
      · rw [if_neg hli] at hstep; cases hstep
    | getRoomInfo short resp =>
      simp only [opStep] at hstep
      by_cases hli : c.logged_in
      · rw [if_pos hli] at hstep; cases hstep; rw [htok] at hsome; exact absurd hsome (by simp)
      · rw [if_neg hli] at hstep; cases hstep
    | getRoomStats short r1 r2 =>
      simp only [opStep] at hstep
      by_cases hli : c.logged_in
      · rw [if_pos hli] at hstep; cases hstep; rw [htok] at hsome; exact absurd hsome (by simp)
      · rw [if_neg hli] at hstep; cases hstep
  · intro c short resp h hl
    have hs := reachable_token h hl
    cases ht : c.token with
    | none => rw [ht] at hs; exact absurd hs (by simp)
    | some t => simp [get_room_info]

/-- C5 (witness): a client logged in through `guest_login` holds a token,
and `get_room_info` on it does not panic even on a transport error. -/
theorem C5_witness :
    (get_room_info (ClientModel.mk (some "tok") true).token "S1"
        HttpOutcome.transportError).isSome = true :=
  C5_token_invariant.2.2.2 ⟨some "tok", true⟩ "S1" HttpOutcome.transportError
    (Reachable.step Reachable.new
      (show opStep ⟨none, false⟩
          (ClientOp.guestLogin (HttpOutcome.response 200 "\x7b\"token\":\"tok\"\x7d")) =
        some ⟨some "tok", true⟩ from rfl))
    rfl

/-- C6: with a token present, `get_room_info` maps a 404 response to
`RoomNotFoundError` carrying exactly the requested short code, a transport
failure or any other non-success status to `ConnectionError`, a 200
response with an undecodable body to a `ParserError`, and a decodable 200
response to the room identity taken from the response (with an empty
description). -/
theorem C6_room_resolution :
    (∀ (t short body : String),
      get_room_info (some t) short (HttpOutcome.response 404 body) =
        some (Except.error (ClientError.RoomNotFoundError short)))
    ∧ (∀ (t short : String),
      get_room_info (some t) short HttpOutcome.transportError =
        some (Except.error ClientError.ConnectionError))
    ∧ (∀ (t short body : String) (status : Nat), status ≠ 200 → status ≠ 404 →
      get_room_info (some t) short (HttpOutcome.response status body) =
        some (Except.error ClientError.ConnectionError))
    ∧ (∀ (t short body : String),
      (Json.parse body).bind MembershipResponse.deserialize = none →
      get_room_info (some t) short (HttpOutcome.response 200 body) =
        some (Except.error (ClientError.ParserError decodeErrMsg)))
    ∧ (∀ (t short body : String) (m : MembershipResponse),
      (Json.parse body).bind MembershipResponse.deserialize = some m →
      get_room_info (some t) short (HttpOutcome.response 200 body) =
        some (Except.ok ⟨m.id, m.short_id, m.name, ""⟩)) := by
  refine ⟨?_, ?_, ?_, ?_, ?_⟩
  · intro t short body
    simp [get_room_info]
  · intro t short
    simp [get_room_info]
  · intro t short body status h200 h404
    simp [get_room_info, h200, h404]
  · intro t short body hbind
    simp [get_room_info, hbind]
  · intro t short body m hbind
    simp [get_room_info, hbind]

/-- C6 (witness): a decodable 200 membership response yields the room
identity contained in it. -/
theorem C6_witness :
    get_room_info (some "t") "AB12CD34"
        (HttpOutcome.response 200
          "\x7b\"id\":\"room-1\",\"shortId\":\"AB12CD34\",\"name\":\"Demo\"\x7d") =
      some (Except.ok ⟨"room-1", "AB12CD34", "Demo", ""⟩) :=
  C6_room_resolution.2.2.2.2 "t" "AB12CD34"
    "\x7b\"id\":\"room-1\",\"shortId\":\"AB12CD34\",\"name\":\"Demo\"\x7d"
    ⟨"room-1", "AB12CD34", "Demo"⟩ rfl

/-- C10: after a successful room resolution, a 200 room-summary response
whose body decodes to a list of summary objects makes `get_room_stats`
return the stats of the first element; on the empty list the
`first().unwrap()` panics (the `none` case of the embedding) — there is no
typed-error branch for an empty array. -/
theorem C10_room_stats :
    ∀ (t short : String) (roomResp : HttpOutcome) (ri : RoomInfo) (body : String)
      (l : List SummaryResponse),
      get_room_info (some t) short roomResp = some (Except.ok ri) →
      (Json.parse body).bind deserializeSummaryList = some l →
      ((l = [] →
        get_room_stats (some t) short roomResp (HttpOutcome.response 200 body) = none)
      ∧ (∀ (x : SummaryResponse) (xs : List SummaryResponse), l = x :: xs →
          get_room_stats (some t) short roomResp (HttpOutcome.response 200 body) =
            some (Except.ok x.stats))) := by
  intro t short roomResp ri body l hroom hbind
  constructor
  · intro hl
    subst hl
    simp [get_room_stats, hroom, hbind]
  · intro x xs hl
    subst hl
    simp [get_room_stats, hroom, hbind]

/-- C10 (witness): a singleton summary array yields its (first) element's
stats. -/
theorem C10_witness :
    get_room_stats (some "t") "AB12CD34"
        (HttpOutcome.response 200
          "\x7b\"id\":\"room-1\",\"shortId\":\"AB12CD34\",\"name\":\"Demo\"\x7d")
        (HttpOutcome.response 200
          "[\x7b\"stats\":\x7b\"contentCount\":5,\"ackCommentCount\":2,\"roomUserCount\":7\x7d\x7d]") =
      some (Except.ok ⟨5, 2, 7⟩) :=
  (C10_room_stats "t" "AB12CD34"
      (HttpOutcome.response 200
        "\x7b\"id\":\"room-1\",\"shortId\":\"AB12CD34\",\"name\":\"Demo\"\x7d")
      ⟨"room-1", "AB12CD34", "Demo", ""⟩
      "[\x7b\"stats\":\x7b\"contentCount\":5,\"ackCommentCount\":2,\"roomUserCount\":7\x7d\x7d]"
      [⟨⟨5, 2, 7⟩⟩] rfl rfl).2 ⟨⟨5, 2, 7⟩⟩ [] rfl

end ArsnovaClient
